import Mathlib

/-!
Verification of the block-manipulation pipeline controller in
`clam_block_manipulation/src/demo/block_manipulation_action_demo.cpp`.

The controller (`BlockManipulationAction`) drives four stages:
a synchronous reset service call (`resetArm` calling `/send_home`),
then three asynchronous actionlib goals — block detection
(callback `addBlocks`), interactive selection (callback `pickAndPlace`)
and pick-and-place (callback `finish`).  Each callback decides, from the
terminal state of the previous goal, what to log, whether to request
`ros::shutdown()`, and what to submit next.

The embedding below follows the source line by line:
* `Config` holds the parameters loaded in the constructor, with their
  documented defaults (`defaultConfig`).
* The three goal payloads and the reset request are built from `Config`
  exactly as the constructor builds them.
* `step` is the transition taken when the outstanding stage completes
  with a given `Outcome`; it returns the new controller state and the
  list of externally observable `Event`s (the requests it submits and
  any `ros::shutdown()` it issues), in program order.
* `run` drives the controller over a list of environment outcomes,
  stopping once a shutdown has been requested (the surrounding
  `ros::spin()` exits and no further completion callback is delivered)
  or once the controller is inert (`halted`: nothing outstanding and
  nothing will ever be submitted again).
-/

namespace Clam

/-- The parameters read by the constructor of `BlockManipulationAction`.
The gripper widths, heights and block size are ROS `double` parameters;
no arithmetic is ever performed on them (they are only copied into goal
payloads), so they are embedded as rationals. -/
structure Config where
  arm_link : String
  gripper_open : ℚ
  gripper_closed : ℚ
  z_up : ℚ
  z_down : ℚ
  block_size : ℚ
  once : Bool
deriving DecidableEq, Repr

/-- The documented defaults of the seven parameters:
`/base_link`, `0.042`, `0.024`, `0.12`, `0.01`, `0.03`, `false`
(the numeric values written with `mkRat` so that they evaluate). -/
def defaultConfig : Config :=
  { arm_link := "/base_link"
    gripper_open := mkRat 42 1000
    gripper_closed := mkRat 24 1000
    z_up := mkRat 12 100
    z_down := mkRat 1 100
    block_size := mkRat 3 100
    once := false }

example : defaultConfig.gripper_open = 0.042 ∧ defaultConfig.gripper_closed = 0.024 ∧
    defaultConfig.z_up = 0.12 ∧ defaultConfig.z_down = 0.01 ∧
    defaultConfig.block_size = 0.03 := by
  refine ⟨?_, ?_, ?_, ?_, ?_⟩ <;> norm_num [defaultConfig]

/-- `const std::string pick_place_topic = "/pick_place";` (line 51). -/
def pick_place_topic : String := "/pick_place"

/-- `clam_msgs::BlockDetectionGoal`: the fields the demo sets. -/
structure BlockDetectionGoal where
  frame : String
  table_height : ℚ
  block_size : ℚ
deriving DecidableEq, Repr

/-- `clam_msgs::InteractiveBlockManipulationGoal`: the fields the demo sets. -/
structure InteractiveBlockManipulationGoal where
  block_size : ℚ
  frame : String
deriving DecidableEq, Repr

/-- `clam_msgs::PickPlaceGoal`: the fields the demo sets. -/
structure PickPlaceGoal where
  frame : String
  z_up : ℚ
  gripper_open : ℚ
  gripper_closed : ℚ
  topic : String
deriving DecidableEq, Repr

/-- The request part of `clam_msgs::SendHomeService`. -/
structure SendHomeRequest where
  sendHome : Bool
deriving DecidableEq, Repr

/-- `block_detection_goal_` as initialised in the constructor:
frame, table height and block size from the parameters. -/
def mkBlockDetectionGoal (c : Config) : BlockDetectionGoal :=
  { frame := c.arm_link
    table_height := c.z_down
    block_size := c.block_size }

/-- `interactive_manipulation_goal_` as initialised in the constructor:
block size and frame from the parameters. -/
def mkInteractiveGoal (c : Config) : InteractiveBlockManipulationGoal :=
  { block_size := c.block_size
    frame := c.arm_link }

/-- `pick_place_goal_` as initialised in the constructor: frame, lift
height, gripper widths from the parameters, and the constant topic. -/
def mkPickPlaceGoal (c : Config) : PickPlaceGoal :=
  { frame := c.arm_link
    z_up := c.z_up
    gripper_open := c.gripper_open
    gripper_closed := c.gripper_closed
    topic := pick_place_topic }

/-- `home_srv_.request.sendHome = true;` in the constructor. -/
def mkHomeRequest : SendHomeRequest := { sendHome := true }

/-- Terminal outcome of a stage: the demo only distinguishes
`SimpleClientGoalState::SUCCEEDED` from everything else, and for the
synchronous reset call the boolean returned by `call`. -/
inductive Outcome where
  | succeeded
  | failed
deriving DecidableEq, Repr

/-- Which stage of the pipeline is currently outstanding. `halted`
means the controller will never submit anything again. -/
inductive Phase where
  | resetting
  | detecting
  | selecting
  | placing
  | halted
deriving DecidableEq, Repr

/-- Externally observable actions of the controller, in program order:
the synchronous `/send_home` call, the three `sendGoal` submissions
(each carrying the goal payload the demo passes), and `ros::shutdown()`. -/
inductive Event where
  | resetCall (req : SendHomeRequest)
  | detectGoal (g : BlockDetectionGoal)
  | selectGoal (g : InteractiveBlockManipulationGoal)
  | placeGoal (g : PickPlaceGoal)
  | shutdown
deriving DecidableEq, Repr

/-- Controller state: the member variables of `BlockManipulationAction`
that the transition logic reads or writes — the three stored goal
payloads, the stored reset request, the `once` flag — together with the
outstanding phase and whether `ros::shutdown()` has been requested. -/
structure MState where
  phase : Phase
  shutdownRequested : Bool
  bdGoal : BlockDetectionGoal
  imGoal : InteractiveBlockManipulationGoal
  ppGoal : PickPlaceGoal
  homeReq : SendHomeRequest
  once : Bool
deriving DecidableEq, Repr

/-- The state right after the constructor finishes waiting for the four
endpoints, at its call to `resetArm()`: goals built from the parameters,
reset outstanding, no shutdown requested. -/
def init (c : Config) : MState :=
  { phase := Phase.resetting
    shutdownRequested := false
    bdGoal := mkBlockDetectionGoal c
    imGoal := mkInteractiveGoal c
    ppGoal := mkPickPlaceGoal c
    homeReq := mkHomeRequest
    once := c.once }

/-- One completion of the outstanding stage, transcribed from the four
handlers of the demo:

* `resetting` (`resetArm`): the synchronous `/send_home` call is issued;
  if it returns `true` the handler calls `detectBlocks()` which submits
  the detection goal; otherwise it logs an error and returns — no
  shutdown is requested and nothing is ever submitted again.
* `detecting` (`addBlocks`): on failure it logs and calls
  `ros::shutdown()`; the function then falls through and submits the
  interactive-manipulation goal unconditionally (there is no `return`
  in the failure branch).
* `selecting` (`pickAndPlace`): same shape — `ros::shutdown()` on
  failure, then the pick-place goal is submitted unconditionally.
* `placing` (`finish`): the outcome only affects logging; the branch
  taken depends solely on `once_` — shutdown when `true`, otherwise
  `resetArm()` starts the next cycle. -/
def step (s : MState) (o : Outcome) : MState × List Event :=
  match s.phase with
  | Phase.resetting =>
      if o = Outcome.succeeded then
        ({ s with phase := Phase.detecting },
         [Event.resetCall s.homeReq, Event.detectGoal s.bdGoal])
      else
        ({ s with phase := Phase.halted },
         [Event.resetCall s.homeReq])
  | Phase.detecting =>
      if o = Outcome.succeeded then
        ({ s with phase := Phase.selecting },
         [Event.selectGoal s.imGoal])
      else
        ({ s with phase := Phase.selecting, shutdownRequested := true },
         [Event.shutdown, Event.selectGoal s.imGoal])
  | Phase.selecting =>
      if o = Outcome.succeeded then
        ({ s with phase := Phase.placing },
         [Event.placeGoal s.ppGoal])
      else
        ({ s with phase := Phase.placing, shutdownRequested := true },
         [Event.shutdown, Event.placeGoal s.ppGoal])
  | Phase.placing =>
      if s.once then
        ({ s with phase := Phase.halted, shutdownRequested := true },
         [Event.shutdown])
      else
        ({ s with phase := Phase.resetting }, [])
  | Phase.halted => (s, [])

/-- Drive the controller over a list of environment outcomes, collecting
the trace of observable events.  Once `ros::shutdown()` has been
requested, `ros::spin()` exits and no further completion is delivered;
once the controller is `halted` nothing is outstanding, so no further
completion can arrive either. -/
def run (s : MState) : List Outcome → List Event
  | [] => []
  | o :: os =>
      if s.phase = Phase.halted ∨ s.shutdownRequested = true then []
      else (step s o).2 ++ run (step s o).1 os

example : run (init defaultConfig) [Outcome.succeeded, Outcome.failed] =
    [Event.resetCall mkHomeRequest,
     Event.detectGoal (mkBlockDetectionGoal defaultConfig),
     Event.shutdown,
     Event.selectGoal (mkInteractiveGoal defaultConfig)] := by decide

example : run (init defaultConfig) [Outcome.failed] =
    [Event.resetCall mkHomeRequest] := by decide

/-- No completion handler writes to the stored goal payloads, the stored
reset request or the `once_` flag: a `step` only changes `phase` and
`shutdownRequested`. -/
theorem step_preserves (s : MState) (o : Outcome) :
    (step s o).1.bdGoal = s.bdGoal ∧ (step s o).1.imGoal = s.imGoal ∧
    (step s o).1.ppGoal = s.ppGoal ∧ (step s o).1.homeReq = s.homeReq ∧
    (step s o).1.once = s.once := by
  rcases s with ⟨ph, sd, bd, im, pp, hr, onc⟩
  cases ph <;> cases o <;> cases onc <;> simp [step]

/-- A halted controller never emits anything again. -/
theorem run_halted (s : MState) (h : s.phase = Phase.halted) (os : List Outcome) :
    run s os = [] := by
  cases os <;> simp [run, h]

/-- After `ros::shutdown()` has been requested no further completion is
delivered, so nothing further is emitted. -/
theorem run_shutdown_requested (s : MState) (h : s.shutdownRequested = true)
    (os : List Outcome) : run s os = [] := by
  cases os <;> simp [run, h]

/-- Every request emitted by a single `step` carries exactly the payload
stored in the controller state at that moment. -/
theorem step_events_goals (s : MState) (o : Outcome) (e : Event)
    (he : e ∈ (step s o).2) :
    (∀ g, e = Event.detectGoal g → g = s.bdGoal) ∧
    (∀ g, e = Event.selectGoal g → g = s.imGoal) ∧
    (∀ g, e = Event.placeGoal g → g = s.ppGoal) ∧
    (∀ r, e = Event.resetCall r → r = s.homeReq) := by
  rcases s with ⟨ph, sd, bd, im, pp, hr, onc⟩
  cases ph <;> cases o <;> cases onc <;>
    simp_all [step] <;>
    rcases he with rfl | rfl <;> simp

/-- Every request emitted anywhere in a run carries exactly the payload
the controller stored at the start of the run: the handlers never
rebuild or modify a goal. -/
theorem run_events_goals (os : List Outcome) (s : MState) (e : Event)
    (he : e ∈ run s os) :
    (∀ g, e = Event.detectGoal g → g = s.bdGoal) ∧
    (∀ g, e = Event.selectGoal g → g = s.imGoal) ∧
    (∀ g, e = Event.placeGoal g → g = s.ppGoal) ∧
    (∀ r, e = Event.resetCall r → r = s.homeReq) := by
  induction os generalizing s with
  | nil => simp [run] at he
  | cons o os ih =>
      rw [run] at he
      split at he
      · simp at he
      · rcases List.mem_append.1 he with h1 | h2
        · exact step_events_goals s o e h1
        · obtain ⟨hbd, him, hpp, hhr, _⟩ := step_preserves s o
          have := ih (step s o).1 h2
          rw [hbd, him, hpp, hhr] at this
          exact this

/-- The outcomes of one fully successful cycle: reset call returns
`true`, then each of the three goals completes with `SUCCEEDED`. -/
def successCycle : List Outcome :=
  [Outcome.succeeded, Outcome.succeeded, Outcome.succeeded, Outcome.succeeded]

/-- The requests one fully successful cycle emits, in program order:
reset call, detection goal, selection goal, pick-place goal. -/
def cycleEvents (c : Config) : List Event :=
  [Event.resetCall mkHomeRequest,
   Event.detectGoal (mkBlockDetectionGoal c),
   Event.selectGoal (mkInteractiveGoal c),
   Event.placeGoal (mkPickPlaceGoal c)]

/-- With `once = false`, a fully successful cycle emits exactly the four
requests in stage order and returns the controller to its initial
state, so the run continues on the remaining outcomes from `init c`. -/
theorem run_cycle (c : Config) (h : c.once = false) (os : List Outcome) :
    run (init c) (successCycle ++ os) = cycleEvents c ++ run (init c) os := by
  simp [successCycle, cycleEvents, run, step, init, h]

/-- The phases in which an asynchronous goal is outstanding (a
completion callback is still owed by the remote side).  The reset call
is synchronous, so nothing is outstanding in `resetting` between
completions. -/
def isAsync : Phase → Bool
  | Phase.detecting => true
  | Phase.selecting => true
  | Phase.placing => true
  | _ => false

/-- How many asynchronous goal submissions a list of events contains. -/
def issuedCount (evs : List Event) : ℕ :=
  (evs.filter fun e =>
    match e with
    | Event.detectGoal _ => true
    | Event.selectGoal _ => true
    | Event.placeGoal _ => true
    | _ => false).length

/-- Controller state instrumented with a count of asynchronous goals
that have been submitted but whose completion callback has not yet been
delivered. -/
structure IState where
  base : MState
  pending : ℕ
deriving DecidableEq, Repr

/-- One instrumented completion: delivering the callback of the
outstanding asynchronous stage (if the current phase has one) consumes
one pending request, and the handler's own submissions add theirs. -/
def istep (s : IState) (o : Outcome) : IState :=
  { base := (step s.base o).1
    pending := s.pending - (if isAsync s.base.phase then 1 else 0)
      + issuedCount (step s.base o).2 }

/-- The instrumented states the controller can actually be in: the
construction-time state, and everything produced by delivering a
completion to a state that is still live (not halted, shutdown not yet
requested — exactly when `run` still feeds outcomes to `step`). -/
inductive Reachable (c : Config) : IState → Prop where
  | start : Reachable c { base := init c, pending := 0 }
  | next (s : IState) (o : Outcome) : Reachable c s →
      s.base.phase ≠ Phase.halted → s.base.shutdownRequested = false →
      Reachable c (istep s o)

/-- In every reachable instrumented state the pending count is exactly
one when an asynchronous stage is outstanding and zero otherwise. -/
theorem reachable_pending (c : Config) (s : IState) (h : Reachable c s) :
    s.pending = (if isAsync s.base.phase then 1 else 0) := by
  induction h with
  | start => simp [init, isAsync]
  | next s o _ hph _ ih =>
      rcases s with ⟨b, p⟩
      rcases b with ⟨ph, sd, bd, im, pp, hr, onc⟩
      cases ph <;> cases o <;> cases onc <;>
        simp_all [istep, step, isAsync, issuedCount]

/-- A concrete controller state with the detection goal outstanding. -/
def sDetecting : MState := { init defaultConfig with phase := Phase.detecting }

/-- A concrete controller state with the selection goal outstanding. -/
def sSelecting : MState := { init defaultConfig with phase := Phase.selecting }

/-- A concrete controller state with the pick-place goal outstanding and
`once = true`. -/
def sPlacingOnce : MState :=
  { init { defaultConfig with once := true } with phase := Phase.placing }

/-- A concrete controller state with the pick-place goal outstanding and
`once = false`. -/
def sPlacingLoop : MState := { init defaultConfig with phase := Phase.placing }

/-- C1: the claim states that after a failed Detect no Select goal is
submitted and after a failed Select no PickPlace goal is submitted.  The
code contradicts this: `addBlocks` calls `ros::shutdown()` in its
failure branch but has no `return`, so it falls through and still
submits the interactive-manipulation (Select) goal; `pickAndPlace` has
the same missing `return` and still submits the PickPlace goal.  This
theorem evaluates the controller at the failing inputs: with the default
configuration, after reset success and Detect failure the trace contains
both the shutdown request and the Select submission, and after reset
success, Detect success and Select failure it contains the PickPlace
submission. -/
theorem detect_select_failure_still_submits_next :
    Event.shutdown ∈ run (init defaultConfig)
      [Outcome.succeeded, Outcome.failed] ∧
    Event.selectGoal (mkInteractiveGoal defaultConfig) ∈
      run (init defaultConfig) [Outcome.succeeded, Outcome.failed] ∧
    Event.placeGoal (mkPickPlaceGoal defaultConfig) ∈
      run (init defaultConfig)
        [Outcome.succeeded, Outcome.succeeded, Outcome.failed] := by
  decide

/-- C2 counterexample: the claim states that a failed reset call, like
the other two unrecoverable failures, requests orderly process shutdown.
It does not: with the default configuration, when the `/send_home` call
fails the trace contains no shutdown request at all — `resetArm` merely
logs and returns. -/
theorem reset_failure_no_shutdown_request :
    Event.shutdown ∉ run (init defaultConfig) [Outcome.failed] := by
  decide

/-- C2 amended: a Detect or Select failure requests process shutdown,
but a failed reset call does not — it only makes the controller
permanently inert (halted, exactly one reset call emitted, no shutdown
request). -/
theorem failure_shutdown_policy (s : MState) :
    (s.phase = Phase.detecting →
      Event.shutdown ∈ (step s Outcome.failed).2 ∧
      (step s Outcome.failed).1.shutdownRequested = true) ∧
    (s.phase = Phase.selecting →
      Event.shutdown ∈ (step s Outcome.failed).2 ∧
      (step s Outcome.failed).1.shutdownRequested = true) ∧
    (s.phase = Phase.resetting →
      (step s Outcome.failed).1.phase = Phase.halted ∧
      (step s Outcome.failed).2 = [Event.resetCall s.homeReq] ∧
      Event.shutdown ∉ (step s Outcome.failed).2 ∧
      (step s Outcome.failed).1.shutdownRequested = s.shutdownRequested) := by
  refine ⟨fun h => ?_, fun h => ?_, fun h => ?_⟩ <;> simp [step, h]

/-- C2 witness: the amended policy at concrete states. -/
theorem failure_shutdown_policy_witness :
    (Event.shutdown ∈ (step sDetecting Outcome.failed).2 ∧
      (step sDetecting Outcome.failed).1.shutdownRequested = true) ∧
    (Event.shutdown ∈ (step sSelecting Outcome.failed).2 ∧
      (step sSelecting Outcome.failed).1.shutdownRequested = true) ∧
    ((step (init defaultConfig) Outcome.failed).1.phase = Phase.halted ∧
      (step (init defaultConfig) Outcome.failed).2 =
        [Event.resetCall (init defaultConfig).homeReq] ∧
      Event.shutdown ∉ (step (init defaultConfig) Outcome.failed).2 ∧
      (step (init defaultConfig) Outcome.failed).1.shutdownRequested =
        (init defaultConfig).shutdownRequested) :=
  ⟨(failure_shutdown_policy sDetecting).1 rfl,
   (failure_shutdown_policy sSelecting).2.1 rfl,
   (failure_shutdown_policy (init defaultConfig)).2.2 rfl⟩

/-- C3: the PickPlace completion transition in `finish` is governed
solely by the `once` flag and not by the Outcome: the transition is
identical for any two outcomes; with `once = true` it halts, emits only
the shutdown request, and nothing is ever emitted afterwards; with
`once = false` it re-enters the reset phase with no submission and no
shutdown request. -/
theorem placing_completion_once_flag_only (s : MState) (o o' : Outcome)
    (h : s.phase = Phase.placing) :
    step s o = step s o' ∧
    (s.once = true →
      (step s o).1.phase = Phase.halted ∧
      (step s o).2 = [Event.shutdown] ∧
      ∀ os, run (step s o).1 os = []) ∧
    (s.once = false →
      (step s o).1.phase = Phase.resetting ∧
      (step s o).2 = [] ∧
      (step s o).1.shutdownRequested = s.shutdownRequested) := by
  refine ⟨?_, fun honce => ?_, fun honce => ?_⟩
  · simp [step, h]
  · refine ⟨by simp [step, h, honce], by simp [step, h, honce], fun os => ?_⟩
    exact run_halted _ (by simp [step, h, honce]) os
  · simp [step, h, honce]

/-- C3 witness: the flag-only transition at concrete placing states. -/
theorem placing_completion_once_flag_only_witness :
    ((step sPlacingOnce Outcome.failed).1.phase = Phase.halted ∧
      (step sPlacingOnce Outcome.failed).2 = [Event.shutdown] ∧
      ∀ os, run (step sPlacingOnce Outcome.failed).1 os = []) ∧
    ((step sPlacingLoop Outcome.failed).1.phase = Phase.resetting ∧
      (step sPlacingLoop Outcome.failed).2 = [] ∧
      (step sPlacingLoop Outcome.failed).1.shutdownRequested =
        sPlacingLoop.shutdownRequested) ∧
    step sPlacingLoop Outcome.failed = step sPlacingLoop Outcome.succeeded :=
  ⟨(placing_completion_once_flag_only sPlacingOnce Outcome.failed
      Outcome.succeeded rfl).2.1 rfl,
   (placing_completion_once_flag_only sPlacingLoop Outcome.failed
      Outcome.succeeded rfl).2.2 rfl,
   (placing_completion_once_flag_only sPlacingLoop Outcome.failed
      Outcome.succeeded rfl).1⟩

/-- C4: when the synchronous reset call fails, the whole remaining run
emits exactly the one reset call — so no Detect goal is ever submitted
and the reset is never re-attempted — and the controller is halted. -/
theorem reset_failure_halts_without_detect (c : Config) (os : List Outcome) :
    run (init c) (Outcome.failed :: os) = [Event.resetCall mkHomeRequest] ∧
    (step (init c) Outcome.failed).1.phase = Phase.halted := by
  constructor
  · rw [run]
    rw [if_neg (by simp [init])]
    rw [run_halted (step (init c) Outcome.failed).1 (by simp [init, step]) os]
    simp [init, step]
  · simp [init, step]

/-- C5: on the all-success path with `once = false`, `n` consecutive
successful cycles emit exactly `n` reset calls and `n` goals per
asynchronous stage, in strict stage order (reset, detect, select,
pick-place) within each cycle. -/
theorem success_cycles_trace (c : Config) (h : c.once = false) (n : ℕ) :
    run (init c) (List.flatten (List.replicate n successCycle)) =
      List.flatten (List.replicate n (cycleEvents c)) := by
  induction n with
  | zero => simp [run]
  | succ k ih => simp [List.replicate_succ, run_cycle c h, ih]

/-- C5 witness: two successful cycles at the default configuration. -/
theorem success_cycles_trace_witness :
    defaultConfig.once = false ∧
    run (init defaultConfig) (List.flatten (List.replicate 2 successCycle)) =
      List.flatten (List.replicate 2 (cycleEvents defaultConfig)) :=
  ⟨rfl, success_cycles_trace defaultConfig rfl 2⟩

/-- C6: in every reachable instrumented state at most one asynchronous
request is outstanding, and the completion that the next `step` consumes
(one request when an asynchronous stage is outstanding, none in the
synchronous reset phase) brings the outstanding count to zero before the
handler submits anything new — the controller never submits a new
stage's goal while a previous one is still unanswered. -/
theorem single_outstanding_invariant (c : Config) (s : IState)
    (h : Reachable c s) :
    s.pending ≤ 1 ∧
    s.pending - (if isAsync s.base.phase then 1 else 0) = 0 := by
  rw [reachable_pending c s h]
  split <;> simp

/-- C6 witness: the invariant at the construction-time state. -/
theorem single_outstanding_invariant_witness :
    (({ base := init defaultConfig, pending := 0 } : IState)).pending ≤ 1 ∧
    (({ base := init defaultConfig, pending := 0 } : IState)).pending -
      (if isAsync (init defaultConfig).phase then 1 else 0) = 0 :=
  single_outstanding_invariant defaultConfig _ Reachable.start

/-- C7: every goal the controller ever submits, on any run from
construction, is exactly the payload built from the configuration in the
constructor — byte-identical across all loop iterations, with no
upstream stage result injected. -/
theorem goals_deterministic_from_config (c : Config) (os : List Outcome)
    (g1 : BlockDetectionGoal) (g2 : InteractiveBlockManipulationGoal)
    (g3 : PickPlaceGoal) :
    (Event.detectGoal g1 ∈ run (init c) os → g1 = mkBlockDetectionGoal c) ∧
    (Event.selectGoal g2 ∈ run (init c) os → g2 = mkInteractiveGoal c) ∧
    (Event.placeGoal g3 ∈ run (init c) os → g3 = mkPickPlaceGoal c) := by
  refine ⟨fun h => ?_, fun h => ?_, fun h => ?_⟩
  · exact (run_events_goals os (init c) _ h).1 g1 rfl
  · exact (run_events_goals os (init c) _ h).2.1 g2 rfl
  · exact (run_events_goals os (init c) _ h).2.2.1 g3 rfl

/-- C7 witness: the goals observed in a concrete successful cycle at the
default configuration are the constructor-built payloads. -/
theorem goals_deterministic_from_config_witness :
    mkBlockDetectionGoal defaultConfig = mkBlockDetectionGoal defaultConfig ∧
    mkInteractiveGoal defaultConfig = mkInteractiveGoal defaultConfig ∧
    mkPickPlaceGoal defaultConfig = mkPickPlaceGoal defaultConfig :=
  ⟨(goals_deterministic_from_config defaultConfig
      [Outcome.succeeded, Outcome.succeeded, Outcome.succeeded]
      (mkBlockDetectionGoal defaultConfig) (mkInteractiveGoal defaultConfig)
      (mkPickPlaceGoal defaultConfig)).1 (by decide),
   (goals_deterministic_from_config defaultConfig
      [Outcome.succeeded, Outcome.succeeded, Outcome.succeeded]
      (mkBlockDetectionGoal defaultConfig) (mkInteractiveGoal defaultConfig)
      (mkPickPlaceGoal defaultConfig)).2.1 (by decide),
   (goals_deterministic_from_config defaultConfig
      [Outcome.succeeded, Outcome.succeeded, Outcome.succeeded]
      (mkBlockDetectionGoal defaultConfig) (mkInteractiveGoal defaultConfig)
      (mkPickPlaceGoal defaultConfig)).2.2 (by decide)⟩

/-- C8: the payloads contain exactly the specified fields drawn from the
configuration: Detect = {frame, surface height, object size}; Select =
{object size, frame}; PickPlace = {frame, lift height, gripper open and
closed widths, result-topic identifier}; reset request = {sendHome:
true}. -/
theorem goal_payload_fields (c : Config) :
    (mkBlockDetectionGoal c).frame = c.arm_link ∧
    (mkBlockDetectionGoal c).table_height = c.z_down ∧
    (mkBlockDetectionGoal c).block_size = c.block_size ∧
    (mkInteractiveGoal c).block_size = c.block_size ∧
    (mkInteractiveGoal c).frame = c.arm_link ∧
    (mkPickPlaceGoal c).frame = c.arm_link ∧
    (mkPickPlaceGoal c).z_up = c.z_up ∧
    (mkPickPlaceGoal c).gripper_open = c.gripper_open ∧
    (mkPickPlaceGoal c).gripper_closed = c.gripper_closed ∧
    (mkPickPlaceGoal c).topic = pick_place_topic ∧
    mkHomeRequest.sendHome = true :=
  ⟨rfl, rfl, rfl, rfl, rfl, rfl, rfl, rfl, rfl, rfl, rfl⟩

/-- C9: every PickPlace goal ever submitted, under any configuration,
carries the fixed result-topic identifier `"/pick_place"` — it comes
from the file-level constant, not from any parameter. -/
theorem pick_place_topic_constant (c : Config) (os : List Outcome)
    (g : PickPlaceGoal) (h : Event.placeGoal g ∈ run (init c) os) :
    g.topic = pick_place_topic ∧ pick_place_topic = "/pick_place" := by
  have hg := (run_events_goals os (init c) _ h).2.2.1 g rfl
  subst hg
  exact ⟨rfl, rfl⟩

/-- C9 witness: the topic of the PickPlace goal observed in a concrete
successful cycle. -/
theorem pick_place_topic_constant_witness :
    (mkPickPlaceGoal defaultConfig).topic = pick_place_topic ∧
    pick_place_topic = "/pick_place" :=
  pick_place_topic_constant defaultConfig
    [Outcome.succeeded, Outcome.succeeded, Outcome.succeeded]
    (mkPickPlaceGoal defaultConfig) (by decide)

/-- C10: every completion handler leaves the three stored goal payloads,
the stored reset request and the `once` configuration flag unchanged —
the goals are built once at construction and no transition mutates
them. -/
theorem handlers_preserve_config_and_goals (s : MState) (o : Outcome) :
    (step s o).1.bdGoal = s.bdGoal ∧
    (step s o).1.imGoal = s.imGoal ∧
    (step s o).1.ppGoal = s.ppGoal ∧
    (step s o).1.homeReq = s.homeReq ∧
    (step s o).1.once = s.once :=
  step_preserves s o

end Clam
